import Mathlib

/-!
# kiwi_warmer_exporter: scrape-and-translate pipeline

A shallow embedding of `metrics.go` and of the route registration of
`kiwi_warmer_exporter.go`.

* Go values of type `error` are `Option GoError`, `none` being `nil`; a Go
  multi-value return is a tuple in the order of the Go signature.
* A channel the code sends on is the list of values sent so far, oldest first;
  a send appends at the end.
* `float64` is a type parameter `F` carrying the one arithmetic operation the
  code uses (`/`) and the numeric constants it writes (`0`, `1`, `100`,
  `10000`, as casts of naturals).  The library routine `strconv.ParseFloat` is
  a parameter `ParseFloat : String → Option F`, `none` standing for a non-nil
  error.
* What the network, `io.ReadAll`, `base64.StdEncoding.DecodeString`,
  `json.Unmarshal` and the clock answer during one call of `getDeviceInfo` is
  collected in an `Exchange`.
* `slog` calls have no effect on the values returned or sent and are left out.
-/

namespace KiwiWarmer

/-! ## Go runtime values -/

/-- A non-nil Go `error` value, identified by its message. -/
structure GoError where
  msg : String
deriving DecidableEq, Repr

/-- Go byte slices, and Go strings holding raw bytes. -/
abbrev Bytes := List UInt8

/-- The constant `http.StatusOK`. -/
def StatusOK : Int := 200

/-! ## metrics.go: data model -/

/-- The struct `DeviceInfo`; the zero value `DeviceInfo{}` is the record of empty strings. -/
structure DeviceInfo where
  Result : String := ""
  DeviceMAC : String := ""
  DeviceName : String := ""
  DefaultTemperature : String := ""
  CurrentTemperature : String := ""
  CurrentHumidity : String := ""
  OriginalTemperature : String := ""
  CurrentTemperature2 : String := ""
  CurrentHumidity2 : String := ""
  OriginalTemperature2 : String := ""
  IsHeating : String := ""
  TimeSlotTemperatures : String := ""
  WorkTemperature : String := ""
  NextSlotTemperature : String := ""
  Lat : String := ""
  Lon : String := ""
  Hw : String := ""
  Sw : String := ""
  Error : String := ""
  HeapHealth : String := ""
  DeviceStatus : String := ""
deriving DecidableEq, Repr

/-- The part of `prometheus.Desc` fixed by the arguments of `prometheus.NewDesc`. -/
structure Desc where
  fqName : String
  help : String
  variableLabels : List String
  constLabels : List (String × String)
deriving DecidableEq, Repr

/-- The constructor `prometheus.NewDesc`; a nil slice or map is the empty list. -/
def NewDesc (fqName help : String) (variableLabels : List String)
    (constLabels : List (String × String)) : Desc :=
  { fqName := fqName, help := help, variableLabels := variableLabels, constLabels := constLabels }

/-- The enumeration `prometheus.ValueType`. -/
inductive ValueType where
  | CounterValue
  | GaugeValue
  | UntypedValue
deriving DecidableEq, Repr

/-- A constant metric: what `prometheus.NewConstMetric` stores. -/
structure Metric (F : Type) where
  desc : Desc
  valType : ValueType
  value : F
  labelValues : List String
deriving DecidableEq, Repr

/-- The function `prometheus.MustNewConstMetric`: it panics (`none`) when the number of label
values differs from the number of variable labels of the descriptor. Its other two panics do not
arise here: the nine descriptors are well formed, and label values are Go strings produced by
`json.Unmarshal`, hence valid UTF-8, as every `String` is. -/
def MustNewConstMetric {F : Type} (desc : Desc) (valueType : ValueType) (value : F)
    (labelValues : List String) : Option (Metric F) :=
  if labelValues.length = desc.variableLabels.length then
    some { desc := desc, valType := valueType, value := value, labelValues := labelValues }
  else
    none

/-! ## metrics.go: the descriptors -/

def up : Desc :=
  NewDesc "kiwi_warmer_up" "Whether the Kiwi Warmer unit responded to the scrape" [] []

def duration : Desc :=
  NewDesc "kiwi_warmer_scrape_duration_seconds" "Duration of the query to collect device info" [] []

def info : Desc :=
  NewDesc "kiwi_warmer_info" "Info about the Kiwi Warmer device"
    ["MAC_address", "name", "hardware_version", "software_version"] []

def heapHealth : Desc :=
  NewDesc "kiwi_warmer_heap_health" "Health of the device's heap" [] []

def heating : Desc :=
  NewDesc "kiwi_warmer_heating" "Whether the switch is currently heating" [] []

def humidity : Desc :=
  NewDesc "kiwi_warmer_humidity_percent" "Current humidity, 0-1" ["sensor"] []

def status : Desc :=
  NewDesc "kiwi_warmer_device_status" "Device status" [] []

def targetTemp : Desc :=
  NewDesc "kiwi_warmer_target_temperature_celcius" "Target temperature" [] []

def temp : Desc :=
  NewDesc "kiwi_warmer_temperature_celcius" "Current temperature" ["sensor"] []

/-- The method `Exporter.Describe`: nine sends on the descriptor channel. -/
def Describe (ch : List Desc) : List Desc :=
  let ch := ch ++ [up]
  let ch := ch ++ [duration]
  let ch := ch ++ [info]
  let ch := ch ++ [temp]
  let ch := ch ++ [humidity]
  let ch := ch ++ [heating]
  let ch := ch ++ [targetTemp]
  let ch := ch ++ [heapHealth]
  let ch := ch ++ [status]
  ch

/-! ## metrics.go: the device client -/

/-- The fields of `http.Response` the code reads. `Body` is what `io.ReadAll(resp.Body)`
returns. -/
structure Response where
  StatusCode : Int
  Body : Bytes × Option GoError

/-- What the outside world answers during one call of `getDeviceInfo`. -/
structure Exchange (F : Type) where
  /-- The pair `client.Get(url)` returns; the response is meaningful when the error is nil. -/
  Get : Response × Option GoError
  /-- The function `base64.StdEncoding.DecodeString`. -/
  DecodeString : Bytes → Bytes × Option GoError
  /-- The call `json.Unmarshal(data, &di)`: the record `di` afterwards, and the error. -/
  Unmarshal : Bytes → DeviceInfo → DeviceInfo × Option GoError
  /-- The reading `time.Since(start).Seconds()` at the return statement that is executed. -/
  Seconds : F

/-- The function `getDeviceInfo`. -/
def getDeviceInfo {F : Type} (x : Exchange F) : DeviceInfo × F × Option GoError :=
  let (resp, err) := x.Get
  if err ≠ none then
    ({}, x.Seconds, err)
  else if resp.StatusCode ≠ StatusOK then
    ({}, x.Seconds, err)
  else
    let (body, err) := resp.Body
    if err ≠ none then
      ({}, x.Seconds, err)
    else
      let (decoded, err) := x.DecodeString body
      if err ≠ none then
        ({}, x.Seconds, err)
      else
        let di : DeviceInfo := {}
        let (di, err) := x.Unmarshal decoded di
        if err ≠ none then
          ({}, x.Seconds, err)
        else
          (di, x.Seconds, none)

/-! ## metrics.go: the translator and the collector -/

section Collector

variable {F : Type} [NatCast F] [Div F]

/-- The function `parseAndSetValues`. The key `_key` is used for logging only. -/
def parseAndSetValues (ParseFloat : String → Option F) (_key value : String) (div : F)
    (desc : Desc) (ch : List (Metric F)) (labelValues : List String) :
    Option (List (Metric F)) :=
  match ParseFloat value with
  | none => some ch
  | some v => do
    let m ← MustNewConstMetric desc ValueType.GaugeValue (v / div) labelValues
    some (ch ++ [m])

/-- The method `Exporter.Collect`; `none` is a panic of `MustNewConstMetric`. -/
def Collect (ParseFloat : String → Option F) (x : Exchange F) (ch : List (Metric F)) :
    Option (List (Metric F)) :=
  let (di, t, err) := getDeviceInfo x
  if err ≠ none then do
    let m ← MustNewConstMetric up ValueType.GaugeValue ((0 : Nat) : F) []
    let ch := ch ++ [m]
    let m ← MustNewConstMetric duration ValueType.GaugeValue t []
    let ch := ch ++ [m]
    some ch
  else do
    let m ← MustNewConstMetric up ValueType.GaugeValue ((1 : Nat) : F) []
    let ch := ch ++ [m]
    let m ← MustNewConstMetric duration ValueType.GaugeValue t []
    let ch := ch ++ [m]
    let m ← MustNewConstMetric info ValueType.GaugeValue ((1 : Nat) : F)
      [di.DeviceMAC, di.DeviceName, di.Hw, di.Sw]
    let ch := ch ++ [m]
    let ch ← parseAndSetValues ParseFloat "di.CurrentTemperature" di.CurrentTemperature
      ((100 : Nat) : F) temp ch ["0"]
    let ch ← parseAndSetValues ParseFloat "di.CurrentTemperature2" di.CurrentTemperature2
      ((100 : Nat) : F) temp ch ["1"]
    let ch ← parseAndSetValues ParseFloat "di.CurrentHumidity" di.CurrentHumidity
      ((10000 : Nat) : F) humidity ch ["0"]
    let ch ← parseAndSetValues ParseFloat "di.CurrentHumidity2" di.CurrentHumidity2
      ((10000 : Nat) : F) humidity ch ["1"]
    let ch ← parseAndSetValues ParseFloat "di.WorkTemperature" di.WorkTemperature
      ((1 : Nat) : F) targetTemp ch []
    let ch ← parseAndSetValues ParseFloat "di.HeapHealth" di.HeapHealth
      ((1 : Nat) : F) heapHealth ch []
    let ch ← parseAndSetValues ParseFloat "di.IsHeating" di.IsHeating
      ((1 : Nat) : F) heating ch []
    let ch ← parseAndSetValues ParseFloat "di.DeviceStatus" di.DeviceStatus
      ((1 : Nat) : F) status ch []
    some ch

end Collector

/-! ## kiwi_warmer_exporter.go: flags and route registration -/

/-- The command-line flags after `flag.Parse()`; `kwScrapeTimeout` in nanoseconds. -/
structure Flags where
  logLvl : String := "info"
  listenAddress : String := ":10015"
  metricsPath : String := "/metrics"
  kwAddress : String := ""
  kwScrapeTimeout : Nat := 3000000000
deriving DecidableEq, Repr

/-- The two handlers `main` registers: `promhttp.Handler()` and the function literal that writes
the landing page. -/
inductive Handler where
  | promhttpHandler
  | landingPage
deriving DecidableEq, Repr

/-- The registrations of a `http.ServeMux`: pattern and handler, in the order registered. -/
abbrev ServeMux := List (String × Handler)

/-- The function `http.Handle` (and `http.HandleFunc`) on the default mux. -/
def Handle (mux : ServeMux) (pattern : String) (handler : Handler) : ServeMux :=
  mux ++ [(pattern, handler)]

/-- A pattern without method, host or wildcard matches a path when it is that path, or when it
ends in a slash and is an initial segment of the path. -/
def patternMatches (pattern path : String) : Bool :=
  pattern == path || (pattern.data.getLast? == some '/' && pattern.data.isPrefixOf path.data)

/-- The handler a `http.ServeMux` picks for a path: among the matching patterns the longest. -/
def ServeMux.handler (mux : ServeMux) (path : String) : Option Handler :=
  (mux.foldl
    (fun (best : Option (String × Handler)) (r : String × Handler) =>
      if patternMatches r.1 path then
        match best with
        | none => some r
        | some b => if b.1.length < r.1.length then some r else some b
      else best)
    none).map Prod.snd

/-- The function `main` up to `http.ListenAndServe`: the registrations it makes on the default
mux. The flags are parsed, the value of `metricsPath` is logged, and the patterns registered are
the two string literals. -/
def main (_flags : Flags) : ServeMux :=
  let mux : ServeMux := []
  let mux := Handle mux "/metrics" Handler.promhttpHandler
  let mux := Handle mux "/" Handler.landingPage
  mux

/-! ## The numeric fields of the specification -/

/-- The eight numeric fields of the data-model table of the specification, by JSON key. -/
inductive NumField where
  | currentTemperature
  | currentTemperature2
  | currentHumidity
  | currentHumidity2
  | workTemperature
  | heapHealth
  | isHeating
  | deviceStatus
deriving DecidableEq, Repr

/-- The struct field that the JSON key of a numeric field decodes into (the struct tags). -/
def NumField.get (f : NumField) (di : DeviceInfo) : String :=
  match f with
  | .currentTemperature => di.CurrentTemperature
  | .currentTemperature2 => di.CurrentTemperature2
  | .currentHumidity => di.CurrentHumidity
  | .currentHumidity2 => di.CurrentHumidity2
  | .workTemperature => di.WorkTemperature
  | .heapHealth => di.HeapHealth
  | .isHeating => di.IsHeating
  | .deviceStatus => di.DeviceStatus

/-- The record with one numeric field replaced. -/
def NumField.set (f : NumField) (s : String) (di : DeviceInfo) : DeviceInfo :=
  match f with
  | .currentTemperature => { di with CurrentTemperature := s }
  | .currentTemperature2 => { di with CurrentTemperature2 := s }
  | .currentHumidity => { di with CurrentHumidity := s }
  | .currentHumidity2 => { di with CurrentHumidity2 := s }
  | .workTemperature => { di with WorkTemperature := s }
  | .heapHealth => { di with HeapHealth := s }
  | .isHeating => { di with IsHeating := s }
  | .deviceStatus => { di with DeviceStatus := s }

/-- The gauge the specification's table of metrics assigns to a numeric field. -/
def NumField.specDesc (f : NumField) : Desc :=
  match f with
  | .currentTemperature => temp
  | .currentTemperature2 => temp
  | .currentHumidity => humidity
  | .currentHumidity2 => humidity
  | .workTemperature => targetTemp
  | .heapHealth => KiwiWarmer.heapHealth
  | .isHeating => heating
  | .deviceStatus => status

/-- The label values the specification's table assigns to a numeric field: the sensor number for
temperature and humidity, none otherwise. -/
def NumField.specLabels (f : NumField) : List String :=
  match f with
  | .currentTemperature => ["0"]
  | .currentTemperature2 => ["1"]
  | .currentHumidity => ["0"]
  | .currentHumidity2 => ["1"]
  | .workTemperature => []
  | .heapHealth => []
  | .isHeating => []
  | .deviceStatus => []

/-- The scaling the specification declares: temperatures divided by 100, humidities by 10000,
the other four values unchanged. -/
def NumField.specValue {F : Type} [NatCast F] [Div F] (f : NumField) (v : F) : F :=
  match f with
  | .currentTemperature => v / ((100 : Nat) : F)
  | .currentTemperature2 => v / ((100 : Nat) : F)
  | .currentHumidity => v / ((10000 : Nat) : F)
  | .currentHumidity2 => v / ((10000 : Nat) : F)
  | .workTemperature => v
  | .heapHealth => v
  | .isHeating => v
  | .deviceStatus => v

/-- A sample belongs to a numeric field when it has the field's gauge and label values. -/
def NumField.Owns {F : Type} (f : NumField) (m : Metric F) : Prop :=
  m.desc = f.specDesc ∧ m.labelValues = f.specLabels

instance {F : Type} (f : NumField) (m : Metric F) : Decidable (f.Owns m) := by
  unfold NumField.Owns
  infer_instance

/-- Number of samples of a descriptor in an emission. -/
def countDesc {F : Type} (d : Desc) (ms : List (Metric F)) : Nat :=
  (ms.filter (fun m => decide (m.desc = d))).length

/-- The divisor `Collect` passes to `parseAndSetValues` for a numeric field. -/
def NumField.divisor {F : Type} [NatCast F] (f : NumField) : F :=
  match f with
  | .currentTemperature => ((100 : Nat) : F)
  | .currentTemperature2 => ((100 : Nat) : F)
  | .currentHumidity => ((10000 : Nat) : F)
  | .currentHumidity2 => ((10000 : Nat) : F)
  | .workTemperature => ((1 : Nat) : F)
  | .heapHealth => ((1 : Nat) : F)
  | .isHeating => ((1 : Nat) : F)
  | .deviceStatus => ((1 : Nat) : F)

/-- The samples one call of `parseAndSetValues` sends. -/
def fieldSamples {F : Type} [Div F] (ParseFloat : String → Option F) (value : String) (div : F)
    (desc : Desc) (labelValues : List String) : List (Metric F) :=
  match ParseFloat value with
  | none => []
  | some v =>
    [{ desc := desc, valType := ValueType.GaugeValue, value := v / div, labelValues := labelValues }]

/-- The samples the eight calls of `parseAndSetValues` in `Collect` send, in order. -/
def translated {F : Type} [NatCast F] [Div F] (ParseFloat : String → Option F) (di : DeviceInfo) :
    List (Metric F) :=
  fieldSamples ParseFloat di.CurrentTemperature ((100 : Nat) : F) temp ["0"]
    ++ fieldSamples ParseFloat di.CurrentTemperature2 ((100 : Nat) : F) temp ["1"]
    ++ fieldSamples ParseFloat di.CurrentHumidity ((10000 : Nat) : F) humidity ["0"]
    ++ fieldSamples ParseFloat di.CurrentHumidity2 ((10000 : Nat) : F) humidity ["1"]
    ++ fieldSamples ParseFloat di.WorkTemperature ((1 : Nat) : F) targetTemp []
    ++ fieldSamples ParseFloat di.HeapHealth ((1 : Nat) : F) heapHealth []
    ++ fieldSamples ParseFloat di.IsHeating ((1 : Nat) : F) heating []
    ++ fieldSamples ParseFloat di.DeviceStatus ((1 : Nat) : F) status []

/-- The three samples `Collect` sends first after a fetch without error. -/
def header {F : Type} [NatCast F] (di : DeviceInfo) (t : F) : List (Metric F) :=
  [ { desc := up, valType := ValueType.GaugeValue, value := ((1 : Nat) : F), labelValues := [] },
    { desc := duration, valType := ValueType.GaugeValue, value := t, labelValues := [] },
    { desc := info, valType := ValueType.GaugeValue, value := ((1 : Nat) : F),
      labelValues := [di.DeviceMAC, di.DeviceName, di.Hw, di.Sw] } ]

/-! ## Concrete instances for closed evaluations -/

/-- A parser over the rationals that reads a non-empty string of decimal digits as the integer it
denotes and rejects every other string. On the strings it accepts up to 2^53 it returns the number
`strconv.ParseFloat` returns, and it rejects the strings `""` and `"--"` as that routine does. -/
def decimalParseFloat (s : String) : Option ℚ :=
  if s.data ≠ [] ∧ s.data.all Char.isDigit = true then
    some ((s.data.foldl (fun n c => 10 * n + (c.toNat - 48)) 0 : Nat) : ℚ)
  else
    none

/-- An exchange in which the unit answers with the given status code and the decoded payload is
the given record. -/
def exchangeOf (code : Int) (di : DeviceInfo) (t : ℚ) : Exchange ℚ :=
  { Get := ({ StatusCode := code, Body := ([], none) }, none)
    DecodeString := fun b => (b, none)
    Unmarshal := fun _ _ => (di, none)
    Seconds := t }

/-- An exchange in which the request itself fails. -/
def exchangeRefused (t : ℚ) : Exchange ℚ :=
  { Get := ({ StatusCode := 0, Body := ([], none) }, some { msg := "connection refused" })
    DecodeString := fun b => (b, none)
    Unmarshal := fun _ d => (d, none)
    Seconds := t }

/-- The payload of the scaling scenario of the specification, the fields it leaves open taken
from the happy-path scenario. -/
def scaledRecord : DeviceInfo :=
  { DeviceMAC := "AA:BB", DeviceName := "room", Hw := "1", Sw := "2"
    CurrentTemperature := "2345", CurrentTemperature2 := "2150"
    CurrentHumidity := "5000", CurrentHumidity2 := "4100"
    WorkTemperature := "22", HeapHealth := "95", IsHeating := "1", DeviceStatus := "3" }

/-- The payload of the happy-path scenario of the specification. -/
def happyRecord : DeviceInfo :=
  { DeviceMAC := "AA:BB", DeviceName := "room", Hw := "1", Sw := "2"
    CurrentTemperature := "2100", CurrentTemperature2 := "2150"
    CurrentHumidity := "4000", CurrentHumidity2 := "4100"
    WorkTemperature := "22", HeapHealth := "95", IsHeating := "1", DeviceStatus := "3" }

/-! ## Auxiliary facts -/

theorem parseAndSetValues_eq {F : Type} [Div F] (ParseFloat : String → Option F)
    (key value : String) (div : F)
    (desc : Desc) (ch : List (Metric F)) (labelValues : List String)
    (h : labelValues.length = desc.variableLabels.length) :
    parseAndSetValues ParseFloat key value div desc ch labelValues
      = some (ch ++ fieldSamples ParseFloat value div desc labelValues) := by
  unfold parseAndSetValues fieldSamples
  cases ParseFloat value with
  | none => simp
  | some v => simp [MustNewConstMetric, h]

section Aux

variable {F : Type} [NatCast F] [Div F]

theorem Collect_of_err (ParseFloat : String → Option F) (x : Exchange F) (ch : List (Metric F))
    (di : DeviceInfo) (t : F) (e : GoError) (h : getDeviceInfo x = (di, t, some e)) :
    Collect ParseFloat x ch
      = some (ch ++
          [ { desc := up, valType := ValueType.GaugeValue, value := ((0 : Nat) : F),
              labelValues := [] },
            { desc := duration, valType := ValueType.GaugeValue, value := t,
              labelValues := [] } ]) := by
  simp [Collect, h, MustNewConstMetric, up, duration, NewDesc]

theorem Collect_of_ok (ParseFloat : String → Option F) (x : Exchange F) (ch : List (Metric F))
    (di : DeviceInfo) (t : F) (h : getDeviceInfo x = (di, t, none)) :
    Collect ParseFloat x ch = some (ch ++ header di t ++ translated ParseFloat di) := by
  have e1 : ["0"].length = temp.variableLabels.length := rfl
  have e2 : ["1"].length = temp.variableLabels.length := rfl
  have e3 : ["0"].length = humidity.variableLabels.length := rfl
  have e4 : ["1"].length = humidity.variableLabels.length := rfl
  have e5 : ([] : List String).length = targetTemp.variableLabels.length := rfl
  have e6 : ([] : List String).length = heapHealth.variableLabels.length := rfl
  have e7 : ([] : List String).length = heating.variableLabels.length := rfl
  have e8 : ([] : List String).length = status.variableLabels.length := rfl
  have u : MustNewConstMetric up ValueType.GaugeValue ((1 : Nat) : F) []
      = some { desc := up, valType := ValueType.GaugeValue, value := ((1 : Nat) : F),
               labelValues := [] } := rfl
  have d : MustNewConstMetric duration ValueType.GaugeValue t []
      = some { desc := duration, valType := ValueType.GaugeValue, value := t,
               labelValues := [] } := rfl
  have i : MustNewConstMetric info ValueType.GaugeValue ((1 : Nat) : F)
        [di.DeviceMAC, di.DeviceName, di.Hw, di.Sw]
      = some { desc := info, valType := ValueType.GaugeValue, value := ((1 : Nat) : F),
               labelValues := [di.DeviceMAC, di.DeviceName, di.Hw, di.Sw] } := rfl
  simp only [Collect, h]
  simp [u, d, i, parseAndSetValues_eq _ _ _ _ _ _ _ e1, parseAndSetValues_eq _ _ _ _ _ _ _ e2,
    parseAndSetValues_eq _ _ _ _ _ _ _ e3, parseAndSetValues_eq _ _ _ _ _ _ _ e4,
    parseAndSetValues_eq _ _ _ _ _ _ _ e5, parseAndSetValues_eq _ _ _ _ _ _ _ e6,
    parseAndSetValues_eq _ _ _ _ _ _ _ e7, parseAndSetValues_eq _ _ _ _ _ _ _ e8,
    header, translated]

/-- Every fetch either carries an error or not; in both cases `Collect` returns. -/
theorem Collect_cases (ParseFloat : String → Option F) (x : Exchange F) :
    (∃ di t e, getDeviceInfo x = (di, t, some e)
        ∧ Collect ParseFloat x []
            = some [ { desc := up, valType := ValueType.GaugeValue, value := ((0 : Nat) : F),
                       labelValues := [] },
                     { desc := duration, valType := ValueType.GaugeValue, value := t,
                       labelValues := [] } ])
      ∨ (∃ di t, getDeviceInfo x = (di, t, none)
        ∧ Collect ParseFloat x [] = some (header di t ++ translated ParseFloat di)) := by
  rcases hx : getDeviceInfo x with ⟨di, t, err⟩
  cases err with
  | none =>
    right
    exact ⟨di, t, rfl, by simpa using Collect_of_ok ParseFloat x [] di t hx⟩
  | some e =>
    left
    exact ⟨di, t, e, rfl, by simpa using Collect_of_err ParseFloat x [] di t e hx⟩

omit [NatCast F] in
theorem mem_fieldSamples (ParseFloat : String → Option F) (value : String) (div : F)
    (desc : Desc) (labelValues : List String) (m : Metric F) :
    m ∈ fieldSamples ParseFloat value div desc labelValues
      ↔ ∃ v, ParseFloat value = some v
          ∧ m = { desc := desc, valType := ValueType.GaugeValue, value := v / div,
                  labelValues := labelValues } := by
  unfold fieldSamples
  cases ParseFloat value with
  | none => simp
  | some v => simp

omit [NatCast F] in
theorem filter_owns_fieldSamples (f : NumField) (ParseFloat : String → Option F) (value : String)
    (div : F) (d : Desc) (l : List String) :
    (fieldSamples ParseFloat value div d l).filter (fun m => decide (f.Owns m))
      = if d = f.specDesc ∧ l = f.specLabels then fieldSamples ParseFloat value div d l
        else [] := by
  unfold fieldSamples
  cases ParseFloat value with
  | none => simp
  | some v =>
    by_cases hc : d = f.specDesc ∧ l = f.specLabels
    · simp [NumField.Owns, hc]
    · simp [NumField.Owns, hc]

omit [NatCast F] in
theorem filter_not_owns_fieldSamples (f : NumField) (ParseFloat : String → Option F)
    (value : String) (div : F) (d : Desc) (l : List String) :
    (fieldSamples ParseFloat value div d l).filter (fun m => !decide (f.Owns m))
      = if d = f.specDesc ∧ l = f.specLabels then []
        else fieldSamples ParseFloat value div d l := by
  unfold fieldSamples
  cases ParseFloat value with
  | none => simp
  | some v =>
    by_cases hc : d = f.specDesc ∧ l = f.specLabels
    · simp [NumField.Owns, hc]
    · simp only [NumField.Owns, hc, if_false, List.filter_cons, List.filter_nil]
      simp [hc]

/-- The samples of the translator are those of the numeric fields that parse. -/
theorem mem_translated (ParseFloat : String → Option F) (di : DeviceInfo) (m : Metric F) :
    m ∈ translated ParseFloat di
      ↔ ∃ (g : NumField) (v : F), ParseFloat (g.get di) = some v
          ∧ m = { desc := g.specDesc, valType := ValueType.GaugeValue, value := v / g.divisor,
                  labelValues := g.specLabels } := by
  constructor
  · intro hm
    simp only [translated, List.mem_append, mem_fieldSamples] at hm
    rcases hm with ((((((⟨v, hv, hm⟩ | ⟨v, hv, hm⟩) | ⟨v, hv, hm⟩) | ⟨v, hv, hm⟩) | ⟨v, hv, hm⟩)
        | ⟨v, hv, hm⟩) | ⟨v, hv, hm⟩) | ⟨v, hv, hm⟩
    · exact ⟨.currentTemperature, v, hv, hm⟩
    · exact ⟨.currentTemperature2, v, hv, hm⟩
    · exact ⟨.currentHumidity, v, hv, hm⟩
    · exact ⟨.currentHumidity2, v, hv, hm⟩
    · exact ⟨.workTemperature, v, hv, hm⟩
    · exact ⟨.heapHealth, v, hv, hm⟩
    · exact ⟨.isHeating, v, hv, hm⟩
    · exact ⟨.deviceStatus, v, hv, hm⟩
  · rintro ⟨g, v, hv, rfl⟩
    simp only [translated, List.mem_append, mem_fieldSamples]
    cases g
    · exact Or.inl (Or.inl (Or.inl (Or.inl (Or.inl (Or.inl (Or.inl ⟨v, hv, rfl⟩))))))
    · exact Or.inl (Or.inl (Or.inl (Or.inl (Or.inl (Or.inl (Or.inr ⟨v, hv, rfl⟩))))))
    · exact Or.inl (Or.inl (Or.inl (Or.inl (Or.inl (Or.inr ⟨v, hv, rfl⟩)))))
    · exact Or.inl (Or.inl (Or.inl (Or.inl (Or.inr ⟨v, hv, rfl⟩))))
    · exact Or.inl (Or.inl (Or.inl (Or.inr ⟨v, hv, rfl⟩)))
    · exact Or.inl (Or.inl (Or.inr ⟨v, hv, rfl⟩))
    · exact Or.inl (Or.inr ⟨v, hv, rfl⟩)
    · exact Or.inr ⟨v, hv, rfl⟩

/-- The samples of a numeric field in the emission of a fetch without error: those of the one
call of `parseAndSetValues` made for it. -/
theorem filter_owns_emission (ParseFloat : String → Option F) (di : DeviceInfo) (t : F)
    (g : NumField) :
    (header di t ++ translated ParseFloat di).filter (fun m => decide (g.Owns m))
      = fieldSamples ParseFloat (g.get di) g.divisor g.specDesc g.specLabels := by
  have hh : (header di t).filter (fun m => decide (g.Owns m)) = [] := by
    cases g <;> simp +decide [header, NumField.Owns, NumField.specDesc, List.filter_cons]
  rw [List.filter_append, hh]
  cases g <;>
    simp +decide [translated, List.filter_append, filter_owns_fieldSamples, NumField.specDesc,
      NumField.specLabels, NumField.get, NumField.divisor]

/-- Replacing a numeric field by a string that does not parse removes the samples of that field
from the emission and nothing else. -/
theorem emission_set (ParseFloat : String → Option F) (di : DeviceInfo) (t : F)
    (f : NumField) (s : String) (hs : ParseFloat s = none) :
    header (f.set s di) t ++ translated ParseFloat (f.set s di)
      = (header di t ++ translated ParseFloat di).filter (fun m => !decide (f.Owns m)) := by
  have hh : (header di t).filter (fun m => !decide (f.Owns m)) = header di t := by
    cases f <;> simp +decide [header, NumField.Owns, NumField.specDesc, List.filter_cons]
  have hn : ∀ (div : F) (d : Desc) (l : List String), fieldSamples ParseFloat s div d l = [] := by
    intro div d l
    simp [fieldSamples, hs]
  rw [List.filter_append, hh]
  cases f <;>
    simp +decide [translated, List.filter_append, filter_not_owns_fieldSamples,
      NumField.specDesc, NumField.specLabels, NumField.set, hn, header]

/-- After a fetch without error the only `kiwi_warmer_up` sample is the first, of value 1. -/
theorem filter_up_emission (ParseFloat : String → Option F) (di : DeviceInfo) (t : F) :
    (header di t ++ translated ParseFloat di).filter (fun m => decide (m.desc = up))
      = [ { desc := up, valType := ValueType.GaugeValue, value := ((1 : Nat) : F),
            labelValues := [] } ] := by
  have fs : ∀ (value : String) (div : F) (d : Desc) (l : List String), d ≠ up →
      (fieldSamples ParseFloat value div d l).filter (fun m => decide (m.desc = up)) = [] := by
    intro value div d l hne
    unfold fieldSamples
    cases ParseFloat value with
    | none => simp
    | some v => simp [hne]
  have h1 : duration ≠ up := by decide
  have h3 : info ≠ up := by decide
  simp [header, translated, List.filter_cons, h1, h3,
    fs _ _ temp _ (by decide), fs _ _ humidity _ (by decide),
    fs _ _ targetTemp _ (by decide), fs _ _ heapHealth _ (by decide),
    fs _ _ heating _ (by decide), fs _ _ status _ (by decide)]

end Aux

/-- A list whose filter by a predicate is one element splits around that element, and the filter
by the negated predicate is what is left. -/
theorem split_of_filter_singleton {α : Type} (p : α → Bool) (a : α) (l : List α)
    (h : l.filter p = [a]) :
    ∃ pre post, l = pre ++ a :: post ∧ l.filter (fun m => !p m) = pre ++ post := by
  induction l with
  | nil => simp at h
  | cons b l ih =>
    by_cases hb : p b = true
    · rw [List.filter_cons_of_pos hb] at h
      have hba : b = a := by
        have := congrArg List.head? h
        simpa using this
      have hl : l.filter p = [] := by
        have := congrArg List.tail h
        simpa using this
      refine ⟨[], l, by simp [hba], ?_⟩
      have hl2 : l.filter (fun m => !p m) = l := by
        rw [List.filter_eq_self]
        intro x hx
        have := List.filter_eq_nil_iff.mp hl x hx
        simpa using this
      simp [List.filter_cons, hb, hl2]
    · have hb2 : p b = false := by simpa using hb
      rw [List.filter_cons_of_neg hb] at h
      obtain ⟨pre, post, h1, h2⟩ := ih h
      refine ⟨b :: pre, post, by simp [h1], ?_⟩
      simp [List.filter_cons, hb2, h2]

/-- The status branch of `getDeviceInfo` returns the error of `client.Get`, which is nil there. -/
theorem getDeviceInfo_bad_status {F : Type} (x : Exchange F) (h1 : x.Get.2 = none)
    (h2 : x.Get.1.StatusCode ≠ StatusOK) :
    getDeviceInfo x = ({}, x.Seconds, none) := by
  rcases hg : x.Get with ⟨resp, err⟩
  rw [hg] at h1 h2
  simp only at h1 h2
  subst h1
  simp [getDeviceInfo, hg, h2]

/-- Whatever the body and the parser, a response whose status is not 200 makes `Collect` send
`kiwi_warmer_up = 1`, the duration and an info sample with empty label values first. -/
theorem Collect_bad_status {F : Type} [NatCast F] [Div F] (ParseFloat : String → Option F)
    (x : Exchange F) (h1 : x.Get.2 = none) (h2 : x.Get.1.StatusCode ≠ StatusOK) :
    Collect ParseFloat x [] = some (header {} x.Seconds ++ translated ParseFloat {}) := by
  simpa using Collect_of_ok ParseFloat x [] {} x.Seconds (getDeviceInfo_bad_status x h1 h2)

/-- The registrations of `main` do not depend on the flags. -/
theorem main_registrations (flags : Flags) :
    main flags = [("/metrics", Handler.promhttpHandler), ("/", Handler.landingPage)] :=
  rfl

/-- The happy-path scenario of the specification, evaluated: eleven samples. -/
theorem happy_path_emission :
    Collect decimalParseFloat (exchangeOf 200 happyRecord (3 / 2)) []
      = some
        [ { desc := up, valType := ValueType.GaugeValue, value := 1, labelValues := [] },
          { desc := duration, valType := ValueType.GaugeValue, value := 3 / 2, labelValues := [] },
          { desc := info, valType := ValueType.GaugeValue, value := 1,
            labelValues := ["AA:BB", "room", "1", "2"] },
          { desc := temp, valType := ValueType.GaugeValue, value := 21, labelValues := ["0"] },
          { desc := temp, valType := ValueType.GaugeValue, value := 21.5, labelValues := ["1"] },
          { desc := humidity, valType := ValueType.GaugeValue, value := 0.4,
            labelValues := ["0"] },
          { desc := humidity, valType := ValueType.GaugeValue, value := 0.41,
            labelValues := ["1"] },
          { desc := targetTemp, valType := ValueType.GaugeValue, value := 22, labelValues := [] },
          { desc := heapHealth, valType := ValueType.GaugeValue, value := 95, labelValues := [] },
          { desc := heating, valType := ValueType.GaugeValue, value := 1, labelValues := [] },
          { desc := status, valType := ValueType.GaugeValue, value := 3, labelValues := [] } ] := by
  have h : getDeviceInfo (exchangeOf 200 happyRecord (3 / 2)) = (happyRecord, 3 / 2, none) := rfl
  have e1 : decimalParseFloat "2100" = some 2100 := by decide
  have e2 : decimalParseFloat "2150" = some 2150 := by decide
  have e3 : decimalParseFloat "4000" = some 4000 := by decide
  have e4 : decimalParseFloat "4100" = some 4100 := by decide
  have e5 : decimalParseFloat "22" = some 22 := by decide
  have e6 : decimalParseFloat "95" = some 95 := by decide
  have e7 : decimalParseFloat "1" = some 1 := by decide
  have e8 : decimalParseFloat "3" = some 3 := by decide
  rw [Collect_of_ok decimalParseFloat _ [] _ _ h]
  simp only [header, translated, fieldSamples, happyRecord, e1, e2, e3, e4, e5, e6, e7, e8]
  norm_num

/-! ## The claims -/

section Claims

variable {F : Type} [NatCast F] [Div F]

/-- C1 (the code departs from the claim): at a response with status 500 and no transport error
`getDeviceInfo` returns a nil error with the zero record, and `Collect` sends `kiwi_warmer_up = 1`,
the duration and a `kiwi_warmer_info` sample with four empty label values. -/
theorem status500_reported_up :
    getDeviceInfo (exchangeOf 500 happyRecord (3 / 2)) = ({}, 3 / 2, none)
      ∧ Collect decimalParseFloat (exchangeOf 500 happyRecord (3 / 2)) []
          = some [ { desc := up, valType := ValueType.GaugeValue, value := ((1 : Nat) : ℚ),
                     labelValues := [] },
                   { desc := duration, valType := ValueType.GaugeValue, value := 3 / 2,
                     labelValues := [] },
                   { desc := info, valType := ValueType.GaugeValue, value := ((1 : Nat) : ℚ),
                     labelValues := ["", "", "", ""] } ] := by
  have h : getDeviceInfo (exchangeOf 500 happyRecord (3 / 2)) = ({}, 3 / 2, none) :=
    getDeviceInfo_bad_status (exchangeOf 500 happyRecord (3 / 2)) rfl (by decide)
  refine ⟨h, ?_⟩
  rw [Collect_of_ok decimalParseFloat _ [] _ _ h]
  have e : decimalParseFloat "" = none := by decide
  simp [header, translated, fieldSamples, e]

/-- C2: when the fetch carries an error, `Collect` sends exactly `kiwi_warmer_up = 0` and the
duration with the value the fetch returned; and any emission of `Collect` that contains a
`kiwi_warmer_up` sample of value 0 contains samples of the up and duration descriptors only. -/
theorem collect_down_minimal (ParseFloat : String → Option F)
    (h01 : ((1 : Nat) : F) ≠ ((0 : Nat) : F)) :
    (∀ (x : Exchange F) (di : DeviceInfo) (t : F) (e : GoError),
        getDeviceInfo x = (di, t, some e) →
        Collect ParseFloat x []
          = some [ { desc := up, valType := ValueType.GaugeValue, value := ((0 : Nat) : F),
                     labelValues := [] },
                   { desc := duration, valType := ValueType.GaugeValue, value := t,
                     labelValues := [] } ])
      ∧ (∀ (x : Exchange F) (ms : List (Metric F)),
          Collect ParseFloat x [] = some ms →
          (∃ m ∈ ms, m.desc = up ∧ m.value = ((0 : Nat) : F)) →
          ms.length = 2 ∧ ∀ m ∈ ms, m.desc = up ∨ m.desc = duration) := by
  constructor
  · intro x di t e h
    simpa using Collect_of_err ParseFloat x [] di t e h
  · intro x ms hms hzero
    rcases Collect_cases ParseFloat x with ⟨di, t, e, _, hc⟩ | ⟨di, t, _, hc⟩
    · rw [hc] at hms
      cases hms
      simp
    · rw [hc] at hms
      cases hms
      exfalso
      obtain ⟨m, hm, hd, hv⟩ := hzero
      simp only [List.mem_append, header, translated, mem_fieldSamples, List.mem_cons,
        List.mem_singleton, List.not_mem_nil, or_false] at hm
      have hne : ∀ (d : Desc) (v : F) (l : List String), d ≠ up →
          m = { desc := d, valType := ValueType.GaugeValue, value := v, labelValues := l } →
          False := by
        intro d v l hd2 hm2
        rw [hm2] at hd
        exact hd2 hd
      rcases hm with (hm | hm | hm) | hm
      · rw [hm] at hv
        exact h01 hv
      · exact hne _ _ _ (by decide) hm
      · exact hne _ _ _ (by decide) hm
      · rcases hm with ((((((⟨v, _, hm⟩ | ⟨v, _, hm⟩) | ⟨v, _, hm⟩) | ⟨v, _, hm⟩) | ⟨v, _, hm⟩)
          | ⟨v, _, hm⟩) | ⟨v, _, hm⟩) | ⟨v, _, hm⟩ <;> exact hne _ _ _ (by decide) hm

/-- C2, at a refused connection: the emission is the two samples up = 0 and duration = 3/2. -/
theorem collect_down_minimal_witness :
    ((1 : Nat) : ℚ) ≠ ((0 : Nat) : ℚ)
      ∧ getDeviceInfo (exchangeRefused (3 / 2))
          = ({}, 3 / 2, some { msg := "connection refused" })
      ∧ Collect decimalParseFloat (exchangeRefused (3 / 2)) []
          = some [ { desc := up, valType := ValueType.GaugeValue, value := ((0 : Nat) : ℚ),
                     labelValues := [] },
                   { desc := duration, valType := ValueType.GaugeValue, value := 3 / 2,
                     labelValues := [] } ] :=
  ⟨by simp, rfl,
    (collect_down_minimal decimalParseFloat (by simp)).1 (exchangeRefused (3 / 2)) {} (3 / 2)
      { msg := "connection refused" } rfl⟩

/-- C6: whatever the fetch returns, `Collect` returns an emission with exactly one
`kiwi_warmer_up` sample and exactly one `kiwi_warmer_scrape_duration_seconds` sample; the duration
sample carries the duration the fetch returned, and the up sample is 1 when the fetch returned no
error and 0 otherwise. -/
theorem up_duration_paired (ParseFloat : String → Option F) (x : Exchange F) :
    ∃ ms, Collect ParseFloat x [] = some ms
      ∧ ms.filter (fun m => decide (m.desc = up))
          = [ { desc := up, valType := ValueType.GaugeValue,
                value := if (getDeviceInfo x).2.2 = none then ((1 : Nat) : F) else ((0 : Nat) : F),
                labelValues := [] } ]
      ∧ ms.filter (fun m => decide (m.desc = duration))
          = [ { desc := duration, valType := ValueType.GaugeValue,
                value := (getDeviceInfo x).2.1, labelValues := [] } ]
      ∧ countDesc up ms = 1 ∧ countDesc duration ms = 1 := by
  have key : ∀ ms : List (Metric F),
      ms.filter (fun m => decide (m.desc = up))
          = [ { desc := up, valType := ValueType.GaugeValue,
                value := if (getDeviceInfo x).2.2 = none then ((1 : Nat) : F) else ((0 : Nat) : F),
                labelValues := [] } ]
        ∧ ms.filter (fun m => decide (m.desc = duration))
          = [ { desc := duration, valType := ValueType.GaugeValue,
                value := (getDeviceInfo x).2.1, labelValues := [] } ] →
      ms.filter (fun m => decide (m.desc = up))
          = [ { desc := up, valType := ValueType.GaugeValue,
                value := if (getDeviceInfo x).2.2 = none then ((1 : Nat) : F) else ((0 : Nat) : F),
                labelValues := [] } ]
        ∧ ms.filter (fun m => decide (m.desc = duration))
          = [ { desc := duration, valType := ValueType.GaugeValue,
                value := (getDeviceInfo x).2.1, labelValues := [] } ]
        ∧ countDesc up ms = 1 ∧ countDesc duration ms = 1 := by
    intro ms h
    refine ⟨h.1, h.2, ?_, ?_⟩
    · simp [countDesc, h.1]
    · simp [countDesc, h.2]
  rcases Collect_cases ParseFloat x with ⟨di, t, e, hx, hc⟩ | ⟨di, t, hx, hc⟩
  · refine ⟨_, hc, key _ ?_⟩
    rw [hx]
    have h1 : duration ≠ up := by decide
    have h2 : up ≠ duration := by decide
    simp [List.filter_cons, h1, h2]
  · refine ⟨_, hc, key _ ?_⟩
    rw [hx]
    have fs : ∀ (value : String) (div : F) (d dd : Desc) (l : List String), d ≠ dd →
        (fieldSamples ParseFloat value div d l).filter (fun m => decide (m.desc = dd)) = [] := by
      intro value div d dd l hne
      unfold fieldSamples
      cases ParseFloat value with
      | none => simp
      | some v => simp [hne]
    have h1 : duration ≠ up := by decide
    have h2 : up ≠ duration := by decide
    have h3 : info ≠ up := by decide
    have h4 : info ≠ duration := by decide
    constructor
    · simp [header, translated, List.filter_cons, h1, h3,
        fs _ _ temp up _ (by decide), fs _ _ humidity up _ (by decide),
        fs _ _ targetTemp up _ (by decide), fs _ _ heapHealth up _ (by decide),
        fs _ _ heating up _ (by decide), fs _ _ status up _ (by decide)]
    · simp [header, translated, List.filter_cons, h2, h4,
        fs _ _ temp duration _ (by decide), fs _ _ humidity duration _ (by decide),
        fs _ _ targetTemp duration _ (by decide), fs _ _ heapHealth duration _ (by decide),
        fs _ _ heating duration _ (by decide), fs _ _ status duration _ (by decide)]

/-- C7: after a fetch without error `Collect` sends exactly one `kiwi_warmer_info` sample; its
value is 1 and its label values, paired in order with the label keys of the descriptor, are
`MAC_address` = deviceId, `name` = deviceName, `hardware_version` = hw, `software_version` = sw of
the record, whatever these four strings are. -/
theorem info_sample_labels (ParseFloat : String → Option F) (x : Exchange F) (di : DeviceInfo)
    (t : F) (h : getDeviceInfo x = (di, t, none)) :
    ∃ ms m, Collect ParseFloat x [] = some ms
      ∧ ms.filter (fun m => decide (m.desc = info)) = [m]
      ∧ countDesc info ms = 1
      ∧ m.valType = ValueType.GaugeValue
      ∧ m.value = ((1 : Nat) : F)
      ∧ List.zip m.desc.variableLabels m.labelValues
          = [("MAC_address", di.DeviceMAC), ("name", di.DeviceName), ("hardware_version", di.Hw),
             ("software_version", di.Sw)] := by
  have fs : ∀ (value : String) (div : F) (d : Desc) (l : List String), d ≠ info →
      (fieldSamples ParseFloat value div d l).filter (fun m => decide (m.desc = info)) = [] := by
    intro value div d l hne
    unfold fieldSamples
    cases ParseFloat value with
    | none => simp
    | some v => simp [hne]
  have h1 : up ≠ info := by decide
  have h2 : duration ≠ info := by decide
  have hf : (header di t ++ translated ParseFloat di).filter (fun m => decide (m.desc = info))
      = [ { desc := info, valType := ValueType.GaugeValue, value := ((1 : Nat) : F),
            labelValues := [di.DeviceMAC, di.DeviceName, di.Hw, di.Sw] } ] := by
    simp [header, translated, List.filter_cons, h1, h2,
      fs _ _ temp _ (by decide), fs _ _ humidity _ (by decide),
      fs _ _ targetTemp _ (by decide), fs _ _ heapHealth _ (by decide),
      fs _ _ heating _ (by decide), fs _ _ status _ (by decide)]
  refine ⟨_, _, by simpa using Collect_of_ok ParseFloat x [] di t h, hf, ?_, rfl, rfl, ?_⟩
  · simp [countDesc, hf]
  · simp [info, NewDesc]

/-- C7, at a payload in which the four identification strings are all empty. -/
theorem info_sample_labels_witness :
    getDeviceInfo (exchangeOf 200 {} (3 / 2)) = ({}, 3 / 2, none)
      ∧ ∃ ms m, Collect decimalParseFloat (exchangeOf 200 {} (3 / 2)) [] = some ms
        ∧ ms.filter (fun m => decide (m.desc = info)) = [m]
        ∧ countDesc info ms = 1
        ∧ m.valType = ValueType.GaugeValue
        ∧ m.value = ((1 : Nat) : ℚ)
        ∧ List.zip m.desc.variableLabels m.labelValues
            = [("MAC_address", ""), ("name", ""), ("hardware_version", ""),
               ("software_version", "")] :=
  ⟨rfl, info_sample_labels decimalParseFloat (exchangeOf 200 {} (3 / 2)) {} (3 / 2) rfl⟩

/-- C9: `Describe` sends the nine descriptors, each once, their names are the nine names of the
metric table and pairwise distinct, and every sample in an emission of `Collect` has one of the
descriptors `Describe` sends. -/
theorem describe_nine (ParseFloat : String → Option F) :
    Describe [] = [up, duration, info, temp, humidity, heating, targetTemp, heapHealth, status]
      ∧ (Describe []).map Desc.fqName
          = ["kiwi_warmer_up", "kiwi_warmer_scrape_duration_seconds", "kiwi_warmer_info",
             "kiwi_warmer_temperature_celcius", "kiwi_warmer_humidity_percent",
             "kiwi_warmer_heating", "kiwi_warmer_target_temperature_celcius",
             "kiwi_warmer_heap_health", "kiwi_warmer_device_status"]
      ∧ ((Describe []).map Desc.fqName).Nodup
      ∧ (Describe []).Nodup
      ∧ (Describe []).length = 9
      ∧ ∀ (x : Exchange F) (ms : List (Metric F)), Collect ParseFloat x [] = some ms →
          ∀ m ∈ ms, m.desc ∈ Describe [] := by
  have hD : Describe []
      = [up, duration, info, temp, humidity, heating, targetTemp, heapHealth, status] := rfl
  refine ⟨hD, rfl, by decide, by decide, rfl, ?_⟩
  intro x ms hms m hm
  rw [hD]
  rcases Collect_cases ParseFloat x with ⟨di, t, e, _, hc⟩ | ⟨di, t, _, hc⟩
  · rw [hc] at hms
    cases hms
    simp only [List.mem_cons, List.mem_singleton, List.not_mem_nil, or_false] at hm
    rcases hm with hm | hm <;> subst hm <;> simp
  · rw [hc] at hms
    cases hms
    simp only [List.mem_append, header, translated, mem_fieldSamples, List.mem_cons,
      List.mem_singleton, List.not_mem_nil, or_false] at hm
    rcases hm with (hm | hm | hm) | hm
    · subst hm; simp
    · subst hm; simp
    · subst hm; simp
    · rcases hm with ((((((⟨v, _, hm⟩ | ⟨v, _, hm⟩) | ⟨v, _, hm⟩) | ⟨v, _, hm⟩) | ⟨v, _, hm⟩)
        | ⟨v, _, hm⟩) | ⟨v, _, hm⟩) | ⟨v, _, hm⟩ <;> subst hm <;> simp

/-- C10 (the code departs from the claim): with `--web.metrics-path=/probe` the registrations of
`main` are the literal patterns `/metrics` and `/`; the path `/probe` is served by the landing
page and the metrics handler stays at `/metrics`. -/
theorem metrics_path_flag_ignored :
    main { metricsPath := "/probe" }
        = [("/metrics", Handler.promhttpHandler), ("/", Handler.landingPage)]
      ∧ ("/probe", Handler.promhttpHandler) ∉ main { metricsPath := "/probe" }
      ∧ ServeMux.handler (main { metricsPath := "/probe" }) "/probe" = some Handler.landingPage
      ∧ ServeMux.handler (main { metricsPath := "/probe" }) "/metrics"
          = some Handler.promhttpHandler := by
  refine ⟨rfl, by decide, by decide, by decide⟩

/-- C3 as stated fails: at the payload of the happy-path scenario the fetch carries no error and
all eight numeric fields parse, and the emission of `Collect` has 11 samples, not 12. -/
theorem twelve_samples_refuted :
    getDeviceInfo (exchangeOf 200 happyRecord (3 / 2)) = (happyRecord, 3 / 2, none)
      ∧ (∀ g : NumField, (decimalParseFloat (g.get happyRecord)).isSome = true)
      ∧ ¬ ∃ ms, Collect decimalParseFloat (exchangeOf 200 happyRecord (3 / 2)) [] = some ms
          ∧ ms.length = 12 := by
  refine ⟨rfl, fun g => by cases g <;> decide, ?_⟩
  rintro ⟨ms, hms, hlen⟩
  rw [happy_path_emission] at hms
  cases hms
  simp at hlen

/-- C3 (amended): after a fetch without error of a record whose eight numeric fields all parse,
`Collect` sends exactly 11 samples: one up (of value 1), one duration, one info, two temperature,
two humidity, one target temperature, one heating, one heap health and one device status, and no
two of them share descriptor and label values. -/
theorem up_scrape_complete (ParseFloat : String → Option F) (x : Exchange F) (di : DeviceInfo)
    (t : F) (h : getDeviceInfo x = (di, t, none))
    (hp : ∀ g : NumField, (ParseFloat (g.get di)).isSome = true) :
    ∃ ms, Collect ParseFloat x [] = some ms
      ∧ ms.length = 11
      ∧ ms.filter (fun m => decide (m.desc = up))
          = [ { desc := up, valType := ValueType.GaugeValue, value := ((1 : Nat) : F),
                labelValues := [] } ]
      ∧ countDesc up ms = 1 ∧ countDesc duration ms = 1 ∧ countDesc info ms = 1
      ∧ countDesc temp ms = 2 ∧ countDesc humidity ms = 2 ∧ countDesc targetTemp ms = 1
      ∧ countDesc heating ms = 1 ∧ countDesc heapHealth ms = 1 ∧ countDesc status ms = 1
      ∧ (ms.map (fun m => (m.desc, m.labelValues))).Nodup := by
  obtain ⟨v1, h1⟩ := Option.isSome_iff_exists.mp (hp .currentTemperature)
  obtain ⟨v2, h2⟩ := Option.isSome_iff_exists.mp (hp .currentTemperature2)
  obtain ⟨v3, h3⟩ := Option.isSome_iff_exists.mp (hp .currentHumidity)
  obtain ⟨v4, h4⟩ := Option.isSome_iff_exists.mp (hp .currentHumidity2)
  obtain ⟨v5, h5⟩ := Option.isSome_iff_exists.mp (hp .workTemperature)
  obtain ⟨v6, h6⟩ := Option.isSome_iff_exists.mp (hp .heapHealth)
  obtain ⟨v7, h7⟩ := Option.isSome_iff_exists.mp (hp .isHeating)
  obtain ⟨v8, h8⟩ := Option.isSome_iff_exists.mp (hp .deviceStatus)
  simp only [NumField.get] at h1 h2 h3 h4 h5 h6 h7 h8
  have hc := Collect_of_ok ParseFloat x [] di t h
  simp only [header, translated, fieldSamples, h1, h2, h3, h4, h5, h6, h7, h8, List.nil_append,
    List.cons_append, List.append_nil] at hc
  refine ⟨_, hc, rfl, ?_, ?_, ?_, ?_, ?_, ?_, ?_, ?_, ?_, ?_, ?_⟩ <;>
    simp +decide [countDesc, List.filter_cons]

/-- C3 (amended), at the payload of the happy-path scenario. -/
theorem up_scrape_complete_witness :
    getDeviceInfo (exchangeOf 200 happyRecord (3 / 2)) = (happyRecord, 3 / 2, none)
      ∧ (∀ g : NumField, (decimalParseFloat (g.get happyRecord)).isSome = true)
      ∧ ∃ ms, Collect decimalParseFloat (exchangeOf 200 happyRecord (3 / 2)) [] = some ms
        ∧ ms.length = 11
        ∧ ms.filter (fun m => decide (m.desc = up))
            = [ { desc := up, valType := ValueType.GaugeValue, value := ((1 : Nat) : ℚ),
                  labelValues := [] } ]
        ∧ countDesc up ms = 1 ∧ countDesc duration ms = 1 ∧ countDesc info ms = 1
        ∧ countDesc temp ms = 2 ∧ countDesc humidity ms = 2 ∧ countDesc targetTemp ms = 1
        ∧ countDesc heating ms = 1 ∧ countDesc heapHealth ms = 1 ∧ countDesc status ms = 1
        ∧ (ms.map (fun m => (m.desc, m.labelValues))).Nodup :=
  ⟨rfl, fun g => by cases g <;> decide,
    up_scrape_complete decimalParseFloat (exchangeOf 200 happyRecord (3 / 2)) happyRecord (3 / 2)
      rfl (fun g => by cases g <;> decide)⟩

/-- C4: after a fetch without error, for each numeric field whose string parses to `v`, the
emission of `Collect` holds exactly one sample of that field (its gauge, its sensor label) and the
value of that sample is `v / 100` for the two temperatures, `v / 10000` for the two humidities
and `v` for the target temperature, heap health, heating and device status; the last uses that
dividing by 1 changes nothing. -/
theorem scaling_law (ParseFloat : String → Option F) (x : Exchange F) (di : DeviceInfo) (t : F)
    (f : NumField) (v : F) (hone : ∀ a : F, a / ((1 : Nat) : F) = a)
    (h : getDeviceInfo x = (di, t, none)) (hv : ParseFloat (f.get di) = some v) :
    ∃ ms, Collect ParseFloat x [] = some ms
      ∧ ms.filter (fun m => decide (f.Owns m))
          = [ { desc := f.specDesc, valType := ValueType.GaugeValue, value := f.specValue v,
                labelValues := f.specLabels } ] := by
  refine ⟨_, by simpa using Collect_of_ok ParseFloat x [] di t h, ?_⟩
  rw [filter_owns_emission]
  cases f <;> simp [fieldSamples, hv, NumField.specValue, NumField.divisor, hone]

/-- C4, at `currentTemperature = "2345"` and `currentHumidity = "5000"`: the temperature sample
of sensor 0 is 23.45 and the humidity sample of sensor 0 is 0.5. -/
theorem scaling_law_witness :
    (∀ a : ℚ, a / ((1 : Nat) : ℚ) = a)
      ∧ getDeviceInfo (exchangeOf 200 scaledRecord (3 / 2)) = (scaledRecord, 3 / 2, none)
      ∧ decimalParseFloat (NumField.currentTemperature.get scaledRecord) = some 2345
      ∧ decimalParseFloat (NumField.currentHumidity.get scaledRecord) = some 5000
      ∧ (∃ ms, Collect decimalParseFloat (exchangeOf 200 scaledRecord (3 / 2)) [] = some ms
        ∧ ms.filter (fun m => decide (NumField.currentTemperature.Owns m))
            = [ { desc := temp, valType := ValueType.GaugeValue, value := (23.45 : ℚ),
                  labelValues := ["0"] } ])
      ∧ (∃ ms, Collect decimalParseFloat (exchangeOf 200 scaledRecord (3 / 2)) [] = some ms
        ∧ ms.filter (fun m => decide (NumField.currentHumidity.Owns m))
            = [ { desc := humidity, valType := ValueType.GaugeValue, value := (0.5 : ℚ),
                  labelValues := ["0"] } ]) := by
  have e : NumField.specValue NumField.currentTemperature (2345 : ℚ) = 23.45 := by
    norm_num [NumField.specValue]
  have e' : NumField.specValue NumField.currentHumidity (5000 : ℚ) = 0.5 := by
    norm_num [NumField.specValue]
  have hw := scaling_law decimalParseFloat (exchangeOf 200 scaledRecord (3 / 2)) scaledRecord
    (3 / 2) NumField.currentTemperature 2345 (fun a => by simp) rfl (by decide)
  have hw' := scaling_law decimalParseFloat (exchangeOf 200 scaledRecord (3 / 2)) scaledRecord
    (3 / 2) NumField.currentHumidity 5000 (fun a => by simp) rfl (by decide)
  rw [e] at hw
  rw [e'] at hw'
  exact ⟨fun a => by simp, rfl, by decide, by decide, hw, hw'⟩

/-- C5: after a fetch without error the emission of `Collect` holds a sample of a numeric field
exactly when the string of that field parses. When in a record a numeric field that parses is
replaced by a string that does not parse (such as `"--"` or the empty string), the new emission is
the old one with the one sample of that field taken out: the other samples are the same, in the
same order, there is one sample less, and the `kiwi_warmer_up` sample is still 1. -/
theorem field_tolerance (ParseFloat : String → Option F) (x x' : Exchange F) (di : DeviceInfo)
    (t : F) (f : NumField) (s : String) (v : F)
    (hx : getDeviceInfo x = (di, t, none)) (hx' : getDeviceInfo x' = (f.set s di, t, none))
    (hv : ParseFloat (f.get di) = some v) (hs : ParseFloat s = none) :
    ∃ ms ms', Collect ParseFloat x [] = some ms ∧ Collect ParseFloat x' [] = some ms'
      ∧ (∀ g : NumField, (∃ m ∈ ms, g.Owns m) ↔ (ParseFloat (g.get di)).isSome = true)
      ∧ (∀ g : NumField, (∃ m ∈ ms', g.Owns m) ↔ (ParseFloat (g.get (f.set s di))).isSome = true)
      ∧ (∃ pre post,
          ms = pre ++ { desc := f.specDesc, valType := ValueType.GaugeValue,
                        value := v / f.divisor, labelValues := f.specLabels } :: post
            ∧ ms' = pre ++ post)
      ∧ ms' = ms.filter (fun m => !decide (f.Owns m))
      ∧ (∀ m ∈ ms', ¬ f.Owns m)
      ∧ ms'.length + 1 = ms.length
      ∧ ms'.filter (fun m => decide (m.desc = up))
          = [ { desc := up, valType := ValueType.GaugeValue, value := ((1 : Nat) : F),
                labelValues := [] } ] := by
  have hiff : ∀ (d : DeviceInfo) (g : NumField),
      (∃ m ∈ header d t ++ translated ParseFloat d, g.Owns m)
        ↔ (ParseFloat (g.get d)).isSome = true := by
    intro d g
    have hmem : ∀ m : Metric F, (m ∈ header d t ++ translated ParseFloat d ∧ g.Owns m)
        ↔ m ∈ fieldSamples ParseFloat (g.get d) g.divisor g.specDesc g.specLabels := by
      intro m
      rw [← filter_owns_emission ParseFloat d t g, List.mem_filter]
      simp
    constructor
    · rintro ⟨m, hm, ho⟩
      have h2 := (hmem m).mp ⟨hm, ho⟩
      rw [mem_fieldSamples] at h2
      obtain ⟨w, hw, _⟩ := h2
      simp [hw]
    · intro hsome
      obtain ⟨w, hw⟩ := Option.isSome_iff_exists.mp hsome
      have h2 := (hmem _).mpr ((mem_fieldSamples ParseFloat (g.get d) g.divisor g.specDesc
        g.specLabels _).mpr ⟨w, hw, rfl⟩)
      exact ⟨_, h2.1, h2.2⟩
  have hc := Collect_of_ok ParseFloat x [] di t hx
  have hc' := Collect_of_ok ParseFloat x' [] (f.set s di) t hx'
  simp only [List.nil_append] at hc hc'
  have hset := emission_set ParseFloat di t f s hs
  have hown : (header di t ++ translated ParseFloat di).filter (fun m => decide (f.Owns m))
      = [ { desc := f.specDesc, valType := ValueType.GaugeValue, value := v / f.divisor,
            labelValues := f.specLabels } ] := by
    rw [filter_owns_emission]
    simp [fieldSamples, hv]
  obtain ⟨pre, post, hsplit, hrest⟩ := split_of_filter_singleton _ _ _ hown
  refine ⟨_, _, hc, hc', hiff di, hiff (f.set s di), ⟨pre, post, hsplit, ?_⟩, hset, ?_, ?_,
    filter_up_emission ParseFloat (f.set s di) t⟩
  · rw [hset, hrest]
  · intro m hm
    rw [hset, List.mem_filter] at hm
    simpa using hm.2
  · rw [hset, hrest, hsplit]
    simp
    omega

/-- C5, at the happy-path payload with `isHeating` replaced by `"--"`. -/
theorem field_tolerance_witness :
    getDeviceInfo (exchangeOf 200 happyRecord (3 / 2)) = (happyRecord, 3 / 2, none)
      ∧ getDeviceInfo (exchangeOf 200 (NumField.isHeating.set "--" happyRecord) (3 / 2))
          = (NumField.isHeating.set "--" happyRecord, 3 / 2, none)
      ∧ decimalParseFloat (NumField.isHeating.get happyRecord) = some 1
      ∧ decimalParseFloat "--" = none
      ∧ ∃ ms ms', Collect decimalParseFloat (exchangeOf 200 happyRecord (3 / 2)) [] = some ms
        ∧ Collect decimalParseFloat
            (exchangeOf 200 (NumField.isHeating.set "--" happyRecord) (3 / 2)) [] = some ms'
        ∧ (∀ g : NumField,
            (∃ m ∈ ms, g.Owns m) ↔ (decimalParseFloat (g.get happyRecord)).isSome = true)
        ∧ (∀ g : NumField,
            (∃ m ∈ ms', g.Owns m)
              ↔ (decimalParseFloat (g.get (NumField.isHeating.set "--" happyRecord))).isSome
                  = true)
        ∧ (∃ pre post,
            ms = pre ++ { desc := heating, valType := ValueType.GaugeValue,
                          value := (1 : ℚ) / ((1 : Nat) : ℚ), labelValues := [] } :: post
              ∧ ms' = pre ++ post)
        ∧ ms' = ms.filter (fun m => !decide (NumField.isHeating.Owns m))
        ∧ (∀ m ∈ ms', ¬ NumField.isHeating.Owns m)
        ∧ ms'.length + 1 = ms.length
        ∧ ms'.filter (fun m => decide (m.desc = up))
            = [ { desc := up, valType := ValueType.GaugeValue, value := ((1 : Nat) : ℚ),
                  labelValues := [] } ] :=
  ⟨rfl, rfl, by decide, by decide,
    field_tolerance decimalParseFloat (exchangeOf 200 happyRecord (3 / 2))
      (exchangeOf 200 (NumField.isHeating.set "--" happyRecord) (3 / 2)) happyRecord (3 / 2)
      NumField.isHeating "--" 1 rfl rfl (by decide) (by decide)⟩

/-- C8: in every emission of `Collect` each sample has as many label values as its descriptor
has label keys; a temperature or humidity sample has the one key `sensor` with value `"0"` or
`"1"`; the info sample has four label values; up, duration, target temperature, heating, heap
health and device status samples have none; and every sample other than up, duration and info is
the sample of a numeric field that parses, carrying the label values of that field (`"0"` for
`currentTemperature` and `currentHumidity`, `"1"` for `currentTemperature2` and
`currentHumidity2`). -/
theorem label_cardinality (ParseFloat : String → Option F) (x : Exchange F) :
    ∃ ms, Collect ParseFloat x [] = some ms
      ∧ ∀ m ∈ ms,
          m.labelValues.length = m.desc.variableLabels.length
          ∧ ((m.desc = temp ∨ m.desc = humidity) →
              m.desc.variableLabels = ["sensor"]
                ∧ (m.labelValues = ["0"] ∨ m.labelValues = ["1"]))
          ∧ (m.desc = info → m.labelValues.length = 4)
          ∧ ((m.desc = up ∨ m.desc = duration ∨ m.desc = targetTemp ∨ m.desc = heating
                ∨ m.desc = heapHealth ∨ m.desc = status) → m.labelValues = [])
          ∧ (m.desc = up ∨ m.desc = duration ∨ m.desc = info
              ∨ ∃ g : NumField, g.Owns m
                  ∧ (ParseFloat (g.get (getDeviceInfo x).1)).isSome = true) := by
  rcases Collect_cases ParseFloat x with ⟨di, t, e, hx, hc⟩ | ⟨di, t, hx, hc⟩
  · refine ⟨_, hc, ?_⟩
    intro m hm
    simp only [List.mem_cons, List.mem_singleton, List.not_mem_nil, or_false] at hm
    rcases hm with hm | hm <;> subst hm <;> simp +decide
  · refine ⟨_, hc, ?_⟩
    intro m hm
    rw [hx]
    rw [List.mem_append] at hm
    rcases hm with hm | hm
    · simp only [header, List.mem_cons, List.mem_singleton, List.not_mem_nil, or_false] at hm
      rcases hm with hm | hm | hm <;> subst hm <;> simp +decide
    · obtain ⟨g, v, hv, hm⟩ := (mem_translated ParseFloat di m).mp hm
      subst hm
      have hg : ∃ g' : NumField,
          g'.Owns ({ desc := g.specDesc, valType := ValueType.GaugeValue,
                     value := v / g.divisor, labelValues := g.specLabels } : Metric F)
            ∧ (ParseFloat (g'.get di)).isSome = true :=
        ⟨g, ⟨rfl, rfl⟩, by simp [hv]⟩
      refine ⟨?_, ?_, ?_, ?_, Or.inr (Or.inr (Or.inr hg))⟩ <;>
        cases g <;> simp +decide [NumField.specDesc, NumField.specLabels]

end Claims

end KiwiWarmer
